import Mathlib

/-!

Verification of the interview-note organizer app: a shallow embedding of
`types.ts`, `services/geminiService.ts` and the two `App` component variants
(the plain one and the API-key-gated one), followed by theorems about the
history store, the conversion controller and the service wrapper.

Strings manipulated by the JavaScript source are modelled as Lean `String`s;
the JavaScript string primitives used by the source (`trim`, `slice`,
`length`) are modelled on the underlying character list.

-/

/-- Model of JavaScript `String.prototype.trim` on a character list: drop
leading and trailing whitespace characters. -/
def jsTrimList (l : List Char) : List Char :=
  ((l.dropWhile Char.isWhitespace).reverse.dropWhile Char.isWhitespace).reverse

/-- Model of JavaScript `text.trim()`. -/
def jsTrim (s : String) : String :=
  String.mk (jsTrimList s.data)

/-- Model of JavaScript `text.length` (character count). -/
def jsLength (s : String) : Nat :=
  s.data.length

/-- Model of JavaScript `text.slice(0, n)`. -/
def jsSlice (s : String) (n : Nat) : String :=
  String.mk (s.data.take n)

/-- `types.ts`: the `LogTemplate` enumeration. -/
inductive LogTemplate where
  | PROFESSIONAL
  | HR
  | COUNSELING
  | CASUAL

deriving instance DecidableEq for LogTemplate

/-- `types.ts`: the `InterviewLog` record. -/
structure InterviewLog where
  id : String
  title : String
  date : String
  originalText : String
  organizedText : String
  template : LogTemplate

deriving instance DecidableEq for InterviewLog

/-- `geminiService.ts` line 46: fallback text returned when the API response
carries an empty or missing `text`. -/
def emptyResultFallback : String := "내용을 정리하는 데 실패했습니다."

/-- `geminiService.ts` line 49: the message of the error rethrown by the
wrapper's `catch` block for every failure of the underlying API call. -/
def serviceErrorMsg : String :=
  "노트를 정리할 수 없습니다. 연결 상태를 확인하거나 잠시 후 다시 시도해주세요."

/-- Outcome of the underlying `ai.models.generateContent` call: it either
resolves with a response whose `text` field may be absent, or rejects with
some error message (for example a credential error). -/
inductive ApiResult where
  | resolve (text : Option String)
  | reject (msg : String)

/-- Outcome of a call to the service wrapper as observed by the controller:
success with a result string, or a thrown error carrying an optional message
(`none` models a thrown value that is not an `Error`). -/
inductive ServiceOutcome where
  | ok (r : String)
  | err (msg : Option String)

deriving instance DecidableEq for ServiceOutcome

/-- `geminiService.ts` `organizeInterviewNotes`, as a function of the
underlying API outcome: on resolution it returns `response.text` unless that
is empty or missing, in which case it returns `emptyResultFallback`; on any
rejection it throws an `Error` with the fixed message `serviceErrorMsg`. -/
def organizeInterviewNotes : ApiResult → ServiceOutcome
  | .resolve t => .ok (if t.getD "" = "" then emptyResultFallback else t.getD "")
  | .reject _ => .err (some serviceErrorMsg)

/-- Session state of the plain `App` variant (`part_000` lines 21-328):
the reactive fields owned by the component, minus the copy-toast flag,
which none of the claims concern. -/
structure AppState where
  inputText : String
  organizedContent : String
  template : LogTemplate
  isProcessing : Bool
  history : List InterviewLog
  selectedLogId : Option String

deriving instance DecidableEq for AppState

/-- `saveToHistory` (`part_000` lines 43-47): prepend the new log and keep
the first 20 records (`[newLog, ...history].slice(0, 20)`). -/
def saveToHistory (newLog : InterviewLog) (history : List InterviewLog) :
    List InterviewLog :=
  (newLog :: history).take 20

/-- `handleNewLog` (`part_000` lines 50-55): clear input, result and
selection and reset the template to the default. -/
def handleNewLog (s : AppState) : AppState :=
  { s with
      inputText := ""
      organizedContent := ""
      selectedLogId := none
      template := .PROFESSIONAL }

/-- The title derivation inside `handleOrganize` (`part_000` line 67 and
line 428): `inputText.slice(0, 25).trim() + (inputText.length > 25 ? '...' : '')`. -/
def titleOf (input : String) : String :=
  jsTrim (jsSlice input 25) ++ (if 25 < jsLength input then "..." else "")

/-- The `InterviewLog` constructed by `handleOrganize` on success
(`part_000` lines 65-72); `now` models `Date.now().toString()` and
`dateStr` models `new Date().toLocaleDateString('ko-KR')`. -/
def mkNewLog (now dateStr input result : String) (tmpl : LogTemplate) :
    InterviewLog :=
  { id := now
    title := titleOf input
    date := dateStr
    originalText := input
    organizedText := result
    template := tmpl }

/-- The part of `handleOrganize` that runs once the awaited service call
settles (`part_000` lines 62-80): on success store the result, save the new
log, select it; on failure only alert; the `finally` clears the busy flag in
both branches.  Returns the new state and the alert message, if any. -/
def settleOrganize (s : AppState) (o : ServiceOutcome) (now dateStr : String) :
    AppState × Option String :=
  match o with
  | .ok r =>
      let newLog := mkNewLog now dateStr s.inputText r s.template
      ({ s with
          organizedContent := r
          history := saveToHistory newLog s.history
          selectedLogId := some newLog.id
          isProcessing := false }, none)
  | .err m =>
      ({ s with isProcessing := false }, some (m.getD "오류가 발생했습니다."))

/-- Result of one complete `handleOrganize` invocation: the final state, the
number of calls made to the external service, and the alert shown, if any. -/
structure OrganizeResult where
  state : AppState
  serviceCalls : Nat
  alert : Option String

deriving instance DecidableEq for OrganizeResult

/-- `handleOrganize` (`part_000` lines 57-81) run to completion with the
service call settling with outcome `o`: guard on blank input, set the busy
flag, call the service once, then settle. -/
def handleOrganize (s : AppState) (o : ServiceOutcome) (now dateStr : String) :
    OrganizeResult :=
  if jsTrim s.inputText = "" then ⟨s, 0, none⟩
  else
    let p := settleOrganize { s with isProcessing := true } o now dateStr
    ⟨p.1, 1, p.2⟩

/-- Result of `deleteHistoryItem`: the new state and the history sequence
persisted to storage (unchanged when the confirm dialog is declined). -/
structure DeleteResult where
  state : AppState
  stored : List InterviewLog

/-- `deleteHistoryItem` (`part_000` lines 117-127): behind a confirm gate,
filter the record with the given id out of the history, persist the result,
and reset the session via `handleNewLog` when the deleted record was the
selected one.  `stored` is the previously persisted history. -/
def deleteHistoryItem (s : AppState) (stored : List InterviewLog)
    (confirmed : Bool) (targetId : String) : DeleteResult :=
  if confirmed then
    let updated := s.history.filter (fun h => h.id ≠ targetId)
    let s1 := { s with history := updated }
    if s.selectedLogId = some targetId then ⟨handleNewLog s1, updated⟩
    else ⟨s1, updated⟩
  else ⟨s, stored⟩

/-- The `disabled` condition of the organize button (`part_000` line 229):
`!inputText.trim() || isProcessing`. -/
def organizeButtonDisabled (s : AppState) : Bool :=
  jsTrim s.inputText = "" || s.isProcessing

/-- The UI machine: the app state together with the number of service calls
currently in flight. -/
structure Machine where
  app : AppState
  pending : Nat

/-- Events of the single-threaded event loop that the claims concern: a
click on the organize button (which runs the synchronous prefix of
`handleOrganize` up to the `await`), and the settling of an in-flight
service call with a given outcome. -/
inductive UiEvent where
  | clickOrganize
  | settle (o : ServiceOutcome) (now dateStr : String)

/-- One step of the event loop.  A click does nothing when the button is
disabled; otherwise `handleOrganize` starts: its blank-input guard, then the
busy flag is set and one service call is issued.  A settle event delivers an
outcome to the pending call, running the rest of `handleOrganize`; with no
call in flight there is nothing to settle. -/
def stepM (m : Machine) : UiEvent → Machine
  | .clickOrganize =>
      if organizeButtonDisabled m.app then m
      else if jsTrim m.app.inputText = "" then m
      else ⟨{ m.app with isProcessing := true }, m.pending + 1⟩
  | .settle o now dateStr =>
      match m.pending with
      | 0 => m
      | p + 1 => ⟨(settleOrganize m.app o now dateStr).1, p⟩

/-- Run the event loop over a list of events. -/
def runM (m : Machine) (es : List UiEvent) : Machine :=
  es.foldl stepM m

/-- Consistency invariant of the event loop: a service call is in flight
exactly when the busy flag is set. -/
def procInv (m : Machine) : Prop :=
  m.pending = (if m.app.isProcessing then 1 else 0)

/-- Session state of the API-key-gated `App` variant (`part_000` lines
364-771): the plain variant's fields plus the `isKeySelected` flag. -/
structure AppState2 where
  isKeySelected : Option Bool
  inputText : String
  organizedContent : String
  template : LogTemplate
  isProcessing : Bool
  history : List InterviewLog
  selectedLogId : Option String

deriving instance DecidableEq for AppState2

/-- Result of one `handleOrganize` invocation in the key-gated variant. -/
structure OrganizeResult2 where
  state : AppState2
  serviceCalls : Nat
  alert : Option String

deriving instance DecidableEq for OrganizeResult2

/-- `part_000` line 440: the alert shown by the credential-failure branch. -/
def keyErrorPrompt : String := "선택된 API 키에 문제가 있습니다. 다시 선택해주세요."

/-- `handleOrganize` of the key-gated variant (`part_000` lines 418-447):
identical to the plain variant except that its `catch` first tests
`error.message === "API_KEY_ERROR"` and, when it matches, clears the
key-selected flag and shows the credential re-entry prompt. -/
def handleOrganize2 (s : AppState2) (o : ServiceOutcome) (now dateStr : String) :
    OrganizeResult2 :=
  if jsTrim s.inputText = "" then ⟨s, 0, none⟩
  else
    match o with
    | .ok r =>
        let newLog := mkNewLog now dateStr s.inputText r s.template
        ⟨{ s with
            organizedContent := r
            history := saveToHistory newLog s.history
            selectedLogId := some newLog.id
            isProcessing := false }, 1, none⟩
    | .err m =>
        if m = some "API_KEY_ERROR" then
          ⟨{ s with isKeySelected := some false, isProcessing := false }, 1,
            some keyErrorPrompt⟩
        else
          ⟨{ s with isProcessing := false }, 1, some (m.getD "오류가 발생했습니다.")⟩

/-- Folding `saveToHistory` over a list of logs, starting from an empty
history: a run of successive successful conversions. -/
def appendRun (logs : List InterviewLog) : List InterviewLog :=
  logs.foldl (fun h lg => saveToHistory lg h) []

/-- A concrete log record used by witnesses. -/
def sampleLog (n : Nat) : InterviewLog :=
  { id := toString n
    title := "t"
    date := "2026. 10. 12."
    originalText := "o"
    organizedText := "r"
    template := .PROFESSIONAL }

/-- A concrete session state used by witnesses (the spec's success
scenario). -/
def sampleState : AppState :=
  { inputText := "Met with Kim today, discussed project wrap-up"
    organizedContent := ""
    template := .PROFESSIONAL
    isProcessing := false
    history := []
    selectedLogId := none }

/-- A concrete key-gated session state used for the credential-failure
analysis. -/
def sampleState2 : AppState2 :=
  { isKeySelected := some true
    inputText := "김대리 면담 메모"
    organizedContent := "이전 결과"
    template := .PROFESSIONAL
    isProcessing := false
    history := []
    selectedLogId := none }

/-- A concrete machine with a conversion in flight, used by witnesses. -/
def sampleBusyMachine : Machine :=
  ⟨{ sampleState with isProcessing := true }, 1⟩

/-- A concrete session state whose input is whitespace-only. -/
def sampleBlankState : AppState :=
  { sampleState with inputText := " \t " }

/-- A concrete session state with a two-record history. -/
def sampleHistState : AppState :=
  { sampleState with history := [sampleLog 1, sampleLog 2] }

/-- A concrete session state whose selected record is in the history. -/
def sampleSelState : AppState :=
  { sampleState with history := [sampleLog 1], selectedLogId := some "1" }

/-! ## Helper lemmas -/

theorem jsTrimList_eq_nil {l : List Char} (h : ∀ c ∈ l, c.isWhitespace) :
    jsTrimList l = [] := by
  unfold jsTrimList
  rw [List.dropWhile_eq_nil_iff.mpr h]
  simp

theorem jsTrim_eq_empty {s : String} (h : ∀ c ∈ s.data, c.isWhitespace) :
    jsTrim s = "" := by
  unfold jsTrim
  rw [jsTrimList_eq_nil h]

theorem take_append_take {α : Type} (xs ys : List α) (n : Nat) :
    (xs ++ ys.take n).take n = (xs ++ ys).take n := by
  rw [List.take_append_eq_append_take, List.take_append_eq_append_take,
    List.take_take]
  have h : (n - xs.length) ⊓ n = n - xs.length :=
    inf_eq_left.mpr (Nat.sub_le n xs.length)
  rw [h]

theorem foldl_saveToHistory (logs : List InterviewLog) :
    ∀ h : List InterviewLog, h.length ≤ 20 →
      logs.foldl (fun acc lg => saveToHistory lg acc) h =
        (logs.reverse ++ h).take 20 := by
  induction logs with
  | nil =>
      intro h hh
      simp [List.take_of_length_le hh]
  | cons a l ih =>
      intro h hh
      have h1 : (saveToHistory a h).length ≤ 20 := by
        simp [saveToHistory, List.length_take]
      rw [List.foldl_cons, ih _ h1]
      show (l.reverse ++ (a :: h).take 20).take 20 = ((a :: l).reverse ++ h).take 20
      rw [take_append_take]
      simp

theorem settleOrganize_isProcessing (s : AppState) (o : ServiceOutcome)
    (now dateStr : String) : (settleOrganize s o now dateStr).1.isProcessing = false := by
  cases o <;> rfl

theorem stepM_procInv (m : Machine) (e : UiEvent) (h : procInv m) :
    procInv (stepM m e) := by
  obtain ⟨app, pending⟩ := m
  cases e with
  | clickOrganize =>
      by_cases hd : organizeButtonDisabled app = true
      · have hs : stepM ⟨app, pending⟩ .clickOrganize = ⟨app, pending⟩ := by
          simp only [stepM]
          rw [if_pos hd]
        rw [hs]
        exact h
      · have hne : ¬ jsTrim app.inputText = "" := fun he =>
          hd (by simp [organizeButtonDisabled, he])
        have hproc : app.isProcessing = false := by
          cases hx : app.isProcessing
          · rfl
          · exact absurd (show organizeButtonDisabled app = true by
              simp [organizeButtonDisabled, hx]) hd
        have hs : stepM ⟨app, pending⟩ .clickOrganize =
            ⟨{ app with isProcessing := true }, pending + 1⟩ := by
          simp only [stepM]
          rw [if_neg hd, if_neg hne]
        rw [hs]
        unfold procInv at h ⊢
        simp only at h ⊢
        rw [hproc] at h
        simp at h
        simp [h]
  | settle o now dateStr =>
      cases pending with
      | zero =>
          have hs : stepM ⟨app, 0⟩ (.settle o now dateStr) = ⟨app, 0⟩ := rfl
          rw [hs]
          exact h
      | succ p =>
          have hproc : app.isProcessing = true := by
            unfold procInv at h
            simp only at h
            cases hx : app.isProcessing
            · rw [hx] at h
              simp at h
            · rfl
          have hp0 : p = 0 := by
            unfold procInv at h
            simp only at h
            rw [hproc] at h
            simp at h
            omega
          have hs : stepM ⟨app, p + 1⟩ (.settle o now dateStr) =
              ⟨(settleOrganize app o now dateStr).1, p⟩ := rfl
          rw [hs]
          unfold procInv
          show p = if (settleOrganize app o now dateStr).1.isProcessing = true then 1 else 0
          rw [settleOrganize_isProcessing]
          simp [hp0]

/-! ## Claim theorems -/

/-- C1: invoking the conversion while one is already in flight is a no-op.
Invocation is modelled as the organize-button click, the sole caller of
`handleOrganize` in the component; its `disabled` guard rejects the click
while `isProcessing` is set, so no second service call is made and no state
field changes.  Moreover, along any event sequence from a consistent machine
at most one service call is ever in flight, so `Processing` windows never
overlap. -/
theorem C1_no_overlapping_processing :
    (∀ m : Machine, m.app.isProcessing = true → stepM m .clickOrganize = m)
    ∧ (∀ (m : Machine) (es : List UiEvent), procInv m →
        procInv (runM m es) ∧ (runM m es).pending ≤ 1) := by
  have key : ∀ (es : List UiEvent) (m : Machine), procInv m → procInv (runM m es) := by
    intro es
    induction es with
    | nil =>
        intro m h
        exact h
    | cons e es ih =>
        intro m h
        simp only [runM, List.foldl_cons]
        exact ih (stepM m e) (stepM_procInv m e h)
  refine ⟨?_, ?_⟩
  · intro m h
    obtain ⟨app, pending⟩ := m
    have hd : organizeButtonDisabled app = true := by
      simp only [organizeButtonDisabled, Bool.or_eq_true, decide_eq_true_eq]
      exact Or.inr h
    simp only [stepM]
    rw [if_pos hd]
  · intro m es h
    have hinv := key es m h
    refine ⟨hinv, ?_⟩
    unfold procInv at hinv
    rw [hinv]
    split <;> omega

/-- Witness for C1 at a concrete machine with a conversion in flight. -/
theorem C1_no_overlapping_processing_witness :
    stepM sampleBusyMachine .clickOrganize = sampleBusyMachine
    ∧ (runM sampleBusyMachine [UiEvent.clickOrganize]).pending ≤ 1 :=
  ⟨C1_no_overlapping_processing.1 sampleBusyMachine rfl,
    (C1_no_overlapping_processing.2 sampleBusyMachine [UiEvent.clickOrganize] rfl).2⟩

/-- C2: after any `saveToHistory` the history holds at most 20 records with
the new record at index 0; at the bound the evicted record is the oldest
(the last) one; and a run of 21 successive appends from an empty history
retains exactly appends 2 through 21 in reverse order of appending. -/
theorem C2_history_bound_and_eviction :
    (∀ (lg : InterviewLog) (h : List InterviewLog),
        (saveToHistory lg h).length ≤ 20 ∧ (saveToHistory lg h).head? = some lg)
    ∧ (∀ (lg : InterviewLog) (h : List InterviewLog), h.length = 20 →
        saveToHistory lg h = lg :: h.dropLast)
    ∧ (∀ logs : List InterviewLog, logs.length = 21 →
        appendRun logs = (logs.drop 1).reverse) := by
  refine ⟨?_, ?_, ?_⟩
  · intro lg h
    constructor
    · simp [saveToHistory, List.length_take]
    · show ((lg :: h).take (19 + 1)).head? = some lg
      rw [List.take_succ_cons]
      rfl
  · intro lg h hh
    show (lg :: h).take (19 + 1) = lg :: h.dropLast
    rw [List.take_succ_cons, List.dropLast_eq_take, hh]
  · intro logs hlen
    cases logs with
    | nil => simp at hlen
    | cons a t =>
        have ht : t.length = 20 := by simpa using hlen
        rw [show appendRun (a :: t) =
            ((a :: t).reverse ++ ([] : List InterviewLog)).take 20 from
          foldl_saveToHistory (a :: t) [] (by simp)]
        rw [List.append_nil, List.reverse_cons]
        rw [show (20 : Nat) = t.reverse.length from by simp [ht]]
        rw [List.take_left]
        simp

/-- Witness for C2: 21 successive appends of concrete records. -/
theorem C2_history_bound_and_eviction_witness :
    appendRun ((List.range 21).map sampleLog) =
      (((List.range 21).map sampleLog).drop 1).reverse :=
  C2_history_bound_and_eviction.2.2 _ (by simp)

/-- C3: when the service call succeeds with result `r` on a non-blank input,
the displayed result becomes `r`, the new `InterviewLog` carries the input
verbatim, the result and the selected template, it sits at history position
0, and it becomes the selected record. -/
theorem C3_success_records_conversion :
    ∀ (s : AppState) (r now dateStr : String), jsTrim s.inputText ≠ "" →
      (handleOrganize s (.ok r) now dateStr).state.organizedContent = r
      ∧ (handleOrganize s (.ok r) now dateStr).state.history.head? =
          some (mkNewLog now dateStr s.inputText r s.template)
      ∧ (mkNewLog now dateStr s.inputText r s.template).originalText = s.inputText
      ∧ (mkNewLog now dateStr s.inputText r s.template).organizedText = r
      ∧ (mkNewLog now dateStr s.inputText r s.template).template = s.template
      ∧ (handleOrganize s (.ok r) now dateStr).state.selectedLogId =
          some (mkNewLog now dateStr s.inputText r s.template).id := by
  intro s r now dateStr h
  have hh : handleOrganize s (.ok r) now dateStr =
      ⟨(settleOrganize { s with isProcessing := true } (.ok r) now dateStr).1, 1,
        (settleOrganize { s with isProcessing := true } (.ok r) now dateStr).2⟩ := by
    unfold handleOrganize
    rw [if_neg h]
  rw [hh]
  refine ⟨rfl, ?_, rfl, rfl, rfl, rfl⟩
  show ((mkNewLog now dateStr s.inputText r s.template :: s.history).take (19 + 1)).head? =
    some (mkNewLog now dateStr s.inputText r s.template)
  rw [List.take_succ_cons]
  rfl

/-- Witness for C3: the spec's success scenario. -/
theorem C3_success_records_conversion_witness :
    (handleOrganize sampleState (.ok "REPORT...") "1700000000000" "2026. 10. 12.").state.organizedContent = "REPORT..."
    ∧ (handleOrganize sampleState (.ok "REPORT...") "1700000000000" "2026. 10. 12.").state.history.head? =
        some (mkNewLog "1700000000000" "2026. 10. 12." sampleState.inputText "REPORT..." sampleState.template)
    ∧ (mkNewLog "1700000000000" "2026. 10. 12." sampleState.inputText "REPORT..." sampleState.template).originalText = sampleState.inputText
    ∧ (mkNewLog "1700000000000" "2026. 10. 12." sampleState.inputText "REPORT..." sampleState.template).organizedText = "REPORT..."
    ∧ (mkNewLog "1700000000000" "2026. 10. 12." sampleState.inputText "REPORT..." sampleState.template).template = sampleState.template
    ∧ (handleOrganize sampleState (.ok "REPORT...") "1700000000000" "2026. 10. 12.").state.selectedLogId =
        some (mkNewLog "1700000000000" "2026. 10. 12." sampleState.inputText "REPORT..." sampleState.template).id :=
  C3_success_records_conversion sampleState "REPORT..." "1700000000000" "2026. 10. 12." (by decide)

/-- C4: when the service call fails on a non-blank input, the displayed
result, selection, input, template and history are unchanged, the controller
is back to idle, and the only effect is an alert carrying the failure's
message, or the generic fallback when it has none. -/
theorem C4_failure_preserves_state :
    ∀ (s : AppState) (m : Option String) (now dateStr : String),
      jsTrim s.inputText ≠ "" →
      (handleOrganize s (.err m) now dateStr).state.organizedContent = s.organizedContent
      ∧ (handleOrganize s (.err m) now dateStr).state.selectedLogId = s.selectedLogId
      ∧ (handleOrganize s (.err m) now dateStr).state.inputText = s.inputText
      ∧ (handleOrganize s (.err m) now dateStr).state.template = s.template
      ∧ (handleOrganize s (.err m) now dateStr).state.history = s.history
      ∧ (handleOrganize s (.err m) now dateStr).state.isProcessing = false
      ∧ (handleOrganize s (.err m) now dateStr).alert = some (m.getD "오류가 발생했습니다.")
      ∧ (handleOrganize s (.err m) now dateStr).serviceCalls = 1 := by
  intro s m now dateStr h
  have hh : handleOrganize s (.err m) now dateStr =
      ⟨{ s with isProcessing := false }, 1, some (m.getD "오류가 발생했습니다.")⟩ := by
    unfold handleOrganize
    rw [if_neg h]
    rfl
  rw [hh]
  exact ⟨rfl, rfl, rfl, rfl, rfl, rfl, rfl, rfl⟩

/-- Witness for C4: a thrown value carrying no message, at a concrete
state. -/
theorem C4_failure_preserves_state_witness :
    (handleOrganize sampleState (.err none) "1" "d").state.organizedContent = sampleState.organizedContent
    ∧ (handleOrganize sampleState (.err none) "1" "d").state.selectedLogId = sampleState.selectedLogId
    ∧ (handleOrganize sampleState (.err none) "1" "d").state.inputText = sampleState.inputText
    ∧ (handleOrganize sampleState (.err none) "1" "d").state.template = sampleState.template
    ∧ (handleOrganize sampleState (.err none) "1" "d").state.history = sampleState.history
    ∧ (handleOrganize sampleState (.err none) "1" "d").state.isProcessing = false
    ∧ (handleOrganize sampleState (.err none) "1" "d").alert = some "오류가 발생했습니다."
    ∧ (handleOrganize sampleState (.err none) "1" "d").serviceCalls = 1 :=
  C4_failure_preserves_state sampleState none "1" "d" (by decide)

/-- C6: for input of at most 25 characters the derived title is the trimmed
input with no ellipsis; for longer input it is the trimmed first 25
characters followed by an ellipsis marker. -/
theorem C6_title_derivation :
    ∀ s : String,
      (jsLength s ≤ 25 → titleOf s = jsTrim s)
      ∧ (25 < jsLength s → titleOf s = jsTrim (jsSlice s 25) ++ "...") := by
  intro s
  constructor
  · intro h
    have h25 : ¬ 25 < jsLength s := by omega
    have hsl : jsSlice s 25 = s := by
      unfold jsSlice
      rw [List.take_of_length_le h]
    unfold titleOf
    rw [if_neg h25, hsl]
    simp
  · intro h
    unfold titleOf
    rw [if_pos h]

/-- Witness for C6 at a short and a long concrete input. -/
theorem C6_title_derivation_witness :
    titleOf "  Met with Kim  " = jsTrim "  Met with Kim  "
    ∧ titleOf "Met with Kim today, discussed project wrap-up" =
        jsTrim (jsSlice "Met with Kim today, discussed project wrap-up" 25) ++ "..." :=
  ⟨(C6_title_derivation "  Met with Kim  ").1 (by decide),
    (C6_title_derivation "Met with Kim today, discussed project wrap-up").2 (by decide)⟩

/-- C5: every rejection of the underlying API — a credential failure
included — is rethrown by `organizeInterviewNotes` as an `Error` with the
fixed message `serviceErrorMsg`, so the controller's
`error.message === "API_KEY_ERROR"` branch never fires for a failure
propagated through the wrapper: at a concrete credential rejection the
key-selected flag stays set and the generic alert is shown instead of the
credential re-entry prompt (the state still returns to idle with the
displayed result unchanged). -/
theorem C5_wrapper_hides_credential_failure :
    (∀ msg : String, organizeInterviewNotes (.reject msg) = .err (some serviceErrorMsg))
    ∧ (handleOrganize2 sampleState2
        (organizeInterviewNotes (.reject "API key not valid. Please pass a valid API key."))
        "1700000000000" "2026. 10. 12.").state.isKeySelected = some true
    ∧ (handleOrganize2 sampleState2
        (organizeInterviewNotes (.reject "API key not valid. Please pass a valid API key."))
        "1700000000000" "2026. 10. 12.").alert = some serviceErrorMsg
    ∧ (handleOrganize2 sampleState2
        (organizeInterviewNotes (.reject "API key not valid. Please pass a valid API key."))
        "1700000000000" "2026. 10. 12.").alert ≠ some keyErrorPrompt
    ∧ (handleOrganize2 sampleState2
        (organizeInterviewNotes (.reject "API key not valid. Please pass a valid API key."))
        "1700000000000" "2026. 10. 12.").state.isProcessing = false
    ∧ (handleOrganize2 sampleState2
        (organizeInterviewNotes (.reject "API key not valid. Please pass a valid API key."))
        "1700000000000" "2026. 10. 12.").state.organizedContent = sampleState2.organizedContent := by
  refine ⟨fun msg => rfl, ?_, ?_, ?_, ?_, ?_⟩ <;> decide

/-- C7: a blank (empty or whitespace-only) input makes `handleOrganize` a
complete no-op: the state is returned untouched, no service call is made and
no alert is raised. -/
theorem C7_blank_input_is_noop :
    ∀ (s : AppState) (o : ServiceOutcome) (now dateStr : String),
      (∀ c ∈ s.inputText.data, c.isWhitespace) →
      handleOrganize s o now dateStr = ⟨s, 0, none⟩ := by
  intro s o now dateStr h
  unfold handleOrganize
  rw [if_pos (jsTrim_eq_empty h)]

/-- Witness for C7 at a whitespace-only concrete input. -/
theorem C7_blank_input_is_noop_witness :
    handleOrganize sampleBlankState (.ok "REPORT") "1" "d" =
      ⟨sampleBlankState, 0, none⟩ :=
  C7_blank_input_is_noop sampleBlankState (.ok "REPORT") "1" "d" (by decide)

theorem deleteHistoryItem_history (s : AppState) (stored : List InterviewLog)
    (targetId : String) :
    (deleteHistoryItem s stored true targetId).state.history =
      s.history.filter (fun h => h.id ≠ targetId)
    ∧ (deleteHistoryItem s stored true targetId).stored =
      s.history.filter (fun h => h.id ≠ targetId) := by
  by_cases hsel : s.selectedLogId = some targetId <;>
    simp [deleteHistoryItem, handleNewLog, hsel]

/-- C8: a confirmed deletion leaves a history (both in memory and as
persisted) with no record of the target id, keeps every other record in its
original relative order, and is the identity on a history that contains no
such record. -/
theorem C8_remove_by_id :
    ∀ (s : AppState) (stored : List InterviewLog) (targetId : String),
      (∀ lg ∈ (deleteHistoryItem s stored true targetId).state.history,
        lg.id ≠ targetId)
      ∧ (deleteHistoryItem s stored true targetId).stored =
          (deleteHistoryItem s stored true targetId).state.history
      ∧ ((deleteHistoryItem s stored true targetId).state.history).Sublist s.history
      ∧ (∀ lg ∈ s.history, lg.id ≠ targetId →
          lg ∈ (deleteHistoryItem s stored true targetId).state.history)
      ∧ ((∀ lg ∈ s.history, lg.id ≠ targetId) →
          (deleteHistoryItem s stored true targetId).state.history = s.history) := by
  intro s stored targetId
  obtain ⟨hh, hs⟩ := deleteHistoryItem_history s stored targetId
  refine ⟨?_, ?_, ?_, ?_, ?_⟩
  · intro lg hm
    rw [hh] at hm
    have hmem := List.mem_filter.mp hm
    simpa using hmem.2
  · rw [hh, hs]
  · rw [hh]
    exact List.filter_sublist s.history
  · intro lg hm hid
    rw [hh]
    exact List.mem_filter.mpr ⟨hm, by simpa using hid⟩
  · intro hall
    rw [hh]
    exact List.filter_eq_self.mpr (fun a ha => by simpa using hall a ha)

/-- Witness for C8: a record with a different id survives a concrete
deletion. -/
theorem C8_remove_by_id_witness :
    sampleLog 2 ∈ (deleteHistoryItem sampleHistState [] true "1").state.history :=
  (C8_remove_by_id sampleHistState [] "1").2.2.2.1 (sampleLog 2) (by decide) (by decide)

/-- C9: a confirmed deletion of the currently selected record resets the
session to a blank entry (empty input, empty result, no selection, default
template); deleting a record other than the selected one leaves all session
fields except the history unchanged. -/
theorem C9_delete_selected_resets_session :
    ∀ (s : AppState) (stored : List InterviewLog) (targetId : String),
      (s.selectedLogId = some targetId →
        (deleteHistoryItem s stored true targetId).state.inputText = ""
        ∧ (deleteHistoryItem s stored true targetId).state.organizedContent = ""
        ∧ (deleteHistoryItem s stored true targetId).state.selectedLogId = none
        ∧ (deleteHistoryItem s stored true targetId).state.template = .PROFESSIONAL)
      ∧ (s.selectedLogId ≠ some targetId →
        (deleteHistoryItem s stored true targetId).state.inputText = s.inputText
        ∧ (deleteHistoryItem s stored true targetId).state.organizedContent = s.organizedContent
        ∧ (deleteHistoryItem s stored true targetId).state.selectedLogId = s.selectedLogId
        ∧ (deleteHistoryItem s stored true targetId).state.template = s.template
        ∧ (deleteHistoryItem s stored true targetId).state.isProcessing = s.isProcessing) := by
  intro s stored targetId
  constructor
  · intro hsel
    simp [deleteHistoryItem, handleNewLog, hsel]
  · intro hsel
    simp [deleteHistoryItem, handleNewLog, hsel]

/-- Witness for C9: deleting the selected record of a concrete state. -/
theorem C9_delete_selected_resets_session_witness :
    (deleteHistoryItem sampleSelState [] true "1").state.inputText = ""
    ∧ (deleteHistoryItem sampleSelState [] true "1").state.organizedContent = ""
    ∧ (deleteHistoryItem sampleSelState [] true "1").state.selectedLogId = none
    ∧ (deleteHistoryItem sampleSelState [] true "1").state.template = .PROFESSIONAL :=
  (C9_delete_selected_resets_session sampleSelState [] "1").1 rfl

/-- C10: when the underlying API call resolves, `organizeInterviewNotes`
never resolves with the empty string: its result is non-empty, and for an
empty or missing response text it is exactly the fixed fallback message. -/
theorem C10_success_never_empty :
    ∀ t : Option String,
      (∃ r, organizeInterviewNotes (.resolve t) = .ok r ∧ r ≠ "")
      ∧ ((t = none ∨ t = some "") →
          organizeInterviewNotes (.resolve t) = .ok emptyResultFallback) := by
  intro t
  constructor
  · match t with
    | none => exact ⟨emptyResultFallback, by decide⟩
    | some s =>
        by_cases hs : s = ""
        · subst hs
          exact ⟨emptyResultFallback, by decide⟩
        · refine ⟨s, ?_, hs⟩
          simp [organizeInterviewNotes, hs]
  · intro h
    rcases h with h | h <;> subst h <;> decide

/-- Witness for C10 at an empty response text. -/
theorem C10_success_never_empty_witness :
    organizeInterviewNotes (.resolve (some "")) = .ok emptyResultFallback :=
  (C10_success_never_empty (some "")).2 (Or.inr rfl)
